import Mathlib

set_option autoImplicit false

/-!
Verification of the Rusty-Kaspa-Docker operator scripts.

This file gives a shallow embedding of the three Python scripts of the
repository (pre-check.py, setup-wizard.py, install-docker.py) and proves
properties of the embedded definitions.

Modelling conventions:
  * Machine floats in the scripts only ever hold small integers or GiB
    quantities that are compared with `>=` against integer thresholds whose
    distance from any attainable value is far larger than the floating-point
    rounding error (component scores are integers, the overall score is an
    integer sum divided by 3, so its distance from the thresholds 45/60/75/90
    is either 0 or at least 1/3).  The embedding therefore uses exact
    rationals.
  * `subprocess.run` never raises `CalledProcessError` unless `check=True`
    is passed; the embedding of each call site reflects exactly the
    exceptions that can actually occur there.
  * Console output is not modelled except where a claim is about what is
    reported; there the reported verdict is returned as data.
-/

/-! ## Python string and integer primitives -/

/-- Whitespace characters recognised by Python `str.strip` and by `int()`
(ASCII subset; the scripts only ever see ASCII input). -/
def isSpaceChar (c : Char) : Bool :=
  c = ' ' || c = '\t' || c = '\n' || c = '\r' || c = '\x0b' || c = '\x0c'

/-- Strip leading and trailing whitespace from a character list. -/
def stripChars (cs : List Char) : List Char :=
  ((cs.dropWhile isSpaceChar).reverse.dropWhile isSpaceChar).reverse

/-- Python `str.strip()` (no argument form). -/
def pyStrip (s : String) : String :=
  ⟨stripChars s.toList⟩

/-- Lowercasing of one ASCII character (Python `str.lower` on the ASCII
range, the only characters these scripts compare after lowering). -/
def lowerChar (c : Char) : Char :=
  if 65 ≤ c.toNat ∧ c.toNat ≤ 90 then Char.ofNat (c.toNat + 32) else c

/-- Python `str.lower()` (ASCII range). -/
def pyLower (s : String) : String :=
  ⟨s.toList.map lowerChar⟩

/-- Decimal digit value of a character, if it is an ASCII digit. -/
def digitVal? (c : Char) : Option Nat :=
  if 48 ≤ c.toNat ∧ c.toNat ≤ 57 then some (c.toNat - 48) else none

/-- The ASCII character of a decimal digit. -/
def digitChar (d : Nat) : Char := Char.ofNat (48 + d)

/-- Digit-run parser for Python `int()`: a nonempty run of decimal digits in
which a single underscore may appear between two digits.  This helper
consumes the run after its first digit has been read into `acc`. -/
def parsePyDigitsAux : List Char → Nat → Option Nat
  | [], acc => some acc
  | c :: cs, acc =>
    if c = '_' then
      match cs with
      | [] => none
      | c2 :: cs2 =>
        match digitVal? c2 with
        | some d => parsePyDigitsAux cs2 (10 * acc + d)
        | none => none
    else
      match digitVal? c with
      | some d => parsePyDigitsAux cs (10 * acc + d)
      | none => none

/-- Digit-run parser for Python `int()`: the whole unsigned run. -/
def parsePyDigits : List Char → Option Nat
  | [] => none
  | c :: cs =>
    match digitVal? c with
    | some d => parsePyDigitsAux cs d
    | none => none

/-- Python `int(s)` for base 10: strips surrounding whitespace, accepts an
optional sign, then a digit run (with Python underscore grouping).
Returns `none` where `int()` raises `ValueError`. -/
def py_int (s : String) : Option Int :=
  match stripChars s.toList with
  | [] => none
  | c :: cs =>
    if c = '-' then (parsePyDigits cs).map (fun n => -(n : Int))
    else if c = '+' then (parsePyDigits cs).map (fun n => (n : Int))
    else (parsePyDigits (c :: cs)).map (fun n => (n : Int))

/-- Little-endian decimal digits of a natural number, with an explicit
structural fuel so that the definition reduces in the kernel
(`natDigits` below always supplies sufficient fuel). -/
def natDigitsAux : Nat → Nat → List Nat
  | _, 0 => []
  | 0, _ + 1 => []
  | fuel + 1, n + 1 => (n + 1) % 10 :: natDigitsAux fuel ((n + 1) / 10)

/-- Little-endian decimal digits of a natural number (empty for 0). -/
def natDigits (n : Nat) : List Nat := natDigitsAux n n

/-- Python `str` of a natural number. -/
def natToString (n : Nat) : String :=
  if n = 0 then "0" else ⟨((natDigits n).reverse).map digitChar⟩

/-- Python `str` of an integer. -/
def intToString (n : Int) : String :=
  if n < 0 then "-" ++ natToString n.natAbs else natToString n.toNat

/-! ## Hardware scorer (pre-check.py, rank_hardware_performance) -/

/-- CPU score step function of the physical core count
(pre-check.py lines 360-374). -/
def cpu_score (cpu_cores : Nat) : Nat :=
  if cpu_cores ≥ 16 then 100
  else if cpu_cores ≥ 8 then 80
  else if cpu_cores ≥ 4 then 60
  else if cpu_cores ≥ 2 then 40
  else 20

/-- Memory score step function of total memory in GiB
(pre-check.py lines 387-404). -/
def memory_score (total_memory : ℚ) : Nat :=
  if total_memory ≥ 64 then 100
  else if total_memory ≥ 32 then 90
  else if total_memory ≥ 16 then 70
  else if total_memory ≥ 8 then 50
  else if total_memory ≥ 4 then 30
  else 10

/-- Storage score from the detected storage type string
(pre-check.py lines 417-428). -/
def storage_score (storage_type : String) : Nat :=
  if storage_type = "NVMe SSD" then 100
  else if storage_type = "SSD" then 80
  else if storage_type = "HDD" then 40
  else 20

/-- Overall score: the three component scores averaged
(pre-check.py line 438). -/
def overall_score (cpu_cores : Nat) (total_memory : ℚ) (storage_type : String) : ℚ :=
  ((cpu_score cpu_cores : ℚ) + (memory_score total_memory : ℚ)
    + (storage_score storage_type : ℚ)) / 3

/-- Tier label of an overall score (pre-check.py lines 441-450). -/
def tier_of_overall (x : ℚ) : String :=
  if x ≥ 90 then "Excellent"
  else if x ≥ 75 then "Very Good"
  else if x ≥ 60 then "Good"
  else if x ≥ 45 then "Fair"
  else "Poor"

/-- The adequate-hardware boolean returned by rank_hardware_performance
(pre-check.py line 498: overall_score >= 45). -/
def hardware_adequate (cpu_cores : Nat) (total_memory : ℚ) (storage_type : String) : Bool :=
  decide ((45 : ℚ) ≤ overall_score cpu_cores total_memory storage_type)

/-- The quantities computed by rank_hardware_performance. -/
structure PerformanceScore where
  cpuScore : Nat
  memoryScore : Nat
  storageScore : Nat
  overallScore : ℚ
  overallRating : String
  adequate : Bool
  deriving Repr, DecidableEq

/-- rank_hardware_performance (pre-check.py lines 351-498): the component
scores, their average, the tier label of the average, and the returned
adequacy boolean. -/
def rank_hardware_performance (cpu_cores : Nat) (total_memory : ℚ)
    (storage_type : String) : PerformanceScore :=
  { cpuScore := cpu_score cpu_cores
    memoryScore := memory_score total_memory
    storageScore := storage_score storage_type
    overallScore := overall_score cpu_cores total_memory storage_type
    overallRating := tier_of_overall (overall_score cpu_cores total_memory storage_type)
    adequate := hardware_adequate cpu_cores total_memory storage_type }

/-- CPU score step function exactly as the specification words it:
breakpoints at 2, 4, 8, 16 cores mapping to 20, 40, 60, 80, 100, with
cores below 2 in the lowest bucket. -/
def specCpuScore (c : Nat) : Nat :=
  if c < 2 then 20
  else if c < 4 then 40
  else if c < 8 then 60
  else if c < 16 then 80
  else 100

/-- Memory score step function exactly as the specification words it:
breakpoints at 4, 8, 16, 32, 64 GiB mapping to 10, 30, 50, 70, 90, 100,
with memory below 4 GiB scoring 10. -/
def specMemoryScore (m : ℚ) : Nat :=
  if m < 4 then 10
  else if m < 8 then 30
  else if m < 16 then 50
  else if m < 32 then 70
  else if m < 64 then 90
  else 100

/-! ## Subprocess outcomes and the Docker probes -/

/-- Outcome of a subprocess invocation: either it timed out (raising
`subprocess.TimeoutExpired`) or it completed with a return code and
captured standard output. -/
inductive ProcResult where
  | timeout
  | completed (returncode : Int) (out : String)
  deriving Repr, DecidableEq

/-- What check_docker reports and returns. `daemonReported` is the verdict
printed for the "Docker Daemon" line, when that line is reached at all. -/
structure DockerCheckOut where
  ret : Bool
  daemonReported : Option Bool
  deriving Repr, DecidableEq

/-- check_docker (pre-check.py lines 85-116).  The daemon probe invokes
`subprocess.run(['docker', 'info'], ...)` WITHOUT `check=True`, so a
completed run never raises `CalledProcessError` whatever its exit code;
the `except (TimeoutExpired, CalledProcessError)` arm is reachable only
through a timeout.  A completed `docker info` therefore always takes the
success branch, even with a non-zero exit code. -/
def check_docker (docker_on_path : Bool) (version_run info_run : ProcResult) :
    DockerCheckOut :=
  if ¬docker_on_path then ⟨false, none⟩
  else
    match version_run with
    | .timeout => ⟨false, none⟩
    | .completed rc _ =>
      if rc = 0 then
        match info_run with
        | .timeout => ⟨false, some false⟩
        | .completed _ _ => ⟨true, some true⟩
      else ⟨false, none⟩

/-- check_docker_compose (pre-check.py lines 118-144).  If the standalone
`docker-compose` binary is on PATH but its version query fails with a
non-zero exit, the code falls through to the `docker compose` plugin
probe; a timeout anywhere aborts with failure. -/
def check_docker_compose (compose_on_path : Bool)
    (standalone_run plugin_run : ProcResult) : Bool :=
  if compose_on_path then
    match standalone_run with
    | .timeout => false
    | .completed rc _ =>
      if rc = 0 then true
      else
        match plugin_run with
        | .timeout => false
        | .completed rc2 _ => rc2 = 0
  else
    match plugin_run with
    | .timeout => false
    | .completed rc2 _ => rc2 = 0

/-- run_command (install-docker.py lines 68-88) at its default `check=True`:
a completed subprocess with non-zero exit raises `CalledProcessError`,
which is caught and reported as failure; with zero exit the stdout is
returned; any other exception (timeout) is caught as failure. -/
def run_command (p : ProcResult) : Bool × String :=
  match p with
  | .timeout => (false, "error")
  | .completed rc out => if rc = 0 then (true, out) else (false, "CalledProcessError")

/-- check_docker_installation (install-docker.py lines 364-391): requires the
docker command on PATH, a successful version query, and a successful
`docker info` daemon-status query (both via run_command with check=True). -/
def check_docker_installation (docker_on_path : Bool)
    (version_run info_run : ProcResult) : Bool :=
  if ¬docker_on_path then false
  else if (run_command version_run).1 then
    if (run_command info_run).1 then true else false
  else false

/-- check_docker_compose_installation (install-docker.py lines 393-411): the
`docker compose` plugin version query first (via run_command, check=True);
on failure, the standalone `docker-compose` binary if it is on PATH; False
when neither succeeds. -/
def check_docker_compose_installation (plugin_run : ProcResult)
    (standalone_on_path : Bool) (standalone_run : ProcResult) : Bool :=
  if (run_command plugin_run).1 then true
  else if standalone_on_path then
    if (run_command standalone_run).1 then true else false
  else false

/-- The host facts the installer's main probes.  The OS-specific installer
drives (install_docker_linux / macos / windows and the standalone compose
download, install-docker.py lines 114-362) are linear chains of external
commands that return a boolean; they are abstracted to their boolean
results here, since the claims about the installer concern its exit codes.
The verification probes carry their own outcome fields because they run
after installation, when the earlier PATH lookups may no longer reflect
the host state. -/
structure InstallerEnv where
  system : String
  docker_on_path : Bool
  compose_on_path : Bool
  compose_space_on_path : Bool
  verify_docker_on_path : Bool
  verify_docker_version_run : ProcResult
  verify_docker_info_run : ProcResult
  verify_plugin_run : ProcResult
  verify_standalone_on_path : Bool
  verify_standalone_run : ProcResult
  pre_plugin_run : ProcResult
  pre_standalone_on_path : Bool
  pre_standalone_run : ProcResult
  install_linux_ok : Bool
  install_macos_ok : Bool
  install_windows_ok : Bool
  install_compose_standalone_ok : Bool

/-- The verification phase used both by the already-installed branch and by
the final verification (install-docker.py lines 427 and 458): both check
functions must succeed. -/
def installer_verify (env : InstallerEnv) : Bool :=
  check_docker_installation env.verify_docker_on_path env.verify_docker_version_run
      env.verify_docker_info_run
    && check_docker_compose_installation env.verify_plugin_run
        env.verify_standalone_on_path env.verify_standalone_run

/-- main (install-docker.py lines 413-467): skip installation when both tools
are already on PATH and just verify; otherwise drive the OS-specific
installer branch (returning 1 as soon as a step fails, with the standalone
compose fallback on Linux), then run the final verification; 0 exactly
when a verification phase succeeds, 1 on every failure path and on an
unsupported OS. -/
def installer_main (env : InstallerEnv) : Nat :=
  if env.docker_on_path && (env.compose_on_path || env.compose_space_on_path) then
    if installer_verify env then 0 else 1
  else if env.system = "linux" then
    if !env.install_linux_ok then 1
    else if !(check_docker_compose_installation env.pre_plugin_run
          env.pre_standalone_on_path env.pre_standalone_run)
        && !env.install_compose_standalone_ok then 1
    else if installer_verify env then 0 else 1
  else if env.system = "darwin" then
    if !env.install_macos_ok then 1
    else if installer_verify env then 0 else 1
  else if env.system = "windows" then
    if !env.install_windows_ok then 1
    else if installer_verify env then 0 else 1
  else 1

/-- How a top-level script run ends: the body returns normally, or an
operator interrupt (KeyboardInterrupt) or some other exception escapes
the body.  Interrupt delivery is asynchronous, so it is modelled as an
event rather than as data the body computes. -/
inductive RunEvent where
  | normal
  | interrupt
  | exception
  deriving Repr, DecidableEq

/-- The installer's process exit code (install-docker.py lines 469-477):
`sys.exit(main())` wrapped in handlers that turn KeyboardInterrupt and any
other exception into a clean `sys.exit(1)`. -/
def installer_entry (env : InstallerEnv) (ev : RunEvent) : Nat :=
  match ev with
  | .normal => installer_main env
  | .interrupt => 1
  | .exception => 1

/-! ## Remaining pre-check probes and report aggregation (pre-check.py) -/

/-- check_os (pre-check.py lines 65-73), applied to the lowercased
platform.system() string. -/
def check_os (system : String) : Bool :=
  (["windows", "linux", "darwin"] : List String).contains system

/-- check_python (pre-check.py lines 75-83): `major >= 3 and minor >= 6`. -/
def check_python (major minor : Nat) : Bool :=
  decide (3 ≤ major) && decide (6 ≤ minor)

/-- check_ports (pre-check.py lines 146-162): every required port must accept
a loopback bind. -/
def check_ports (portFree : Nat → Bool) : Bool :=
  ([16111, 17110, 18110] : List Nat).all portFree

/-- check_disk_space (pre-check.py lines 164-196): at least 10 GiB free. -/
def check_disk_space (free_space_gb : ℚ) : Bool :=
  decide ((10 : ℚ) ≤ free_space_gb)

/-- check_memory (pre-check.py lines 500-516): at least 2 GiB available. -/
def check_memory (available_gb : ℚ) : Bool :=
  decide ((2 : ℚ) ≤ available_gb)

/-- The required files list (pre-check.py lines 520-524). -/
def required_files : List String :=
  ["docker-compose.yml", "Dockerfile", ".env.example"]

/-- check_required_files (pre-check.py lines 518-534): every required file
is probed and reported; the check passes only when all exist. -/
def check_required_files (filePresent : String → Bool) : Bool :=
  required_files.all filePresent

/-- check_network (pre-check.py lines 536-559): returns True exactly when DNS
resolution succeeds; the follow-up HTTPS reachability probe is printed but
does not affect the return value. -/
def check_network (dns_ok : Bool) : Bool := dns_ok

/-- The host facts the pre-check main probes.  Each field feeds exactly one
check (the docker fields feed the docker check, and so on), so the checks
are independent of one another. -/
structure PrecheckEnv where
  system : String
  pyMajor : Nat
  pyMinor : Nat
  docker_on_path : Bool
  docker_version_run : ProcResult
  docker_info_run : ProcResult
  compose_on_path : Bool
  compose_standalone_run : ProcResult
  compose_plugin_run : ProcResult
  filePresent : String → Bool
  portFree : Nat → Bool
  free_space_gb : ℚ
  available_gb : ℚ
  dns_ok : Bool
  cpu_cores : Nat
  total_memory_gb : ℚ
  storage_type : String

/-- The results dictionary built by main (pre-check.py lines 588-602),
including the Hardware entry appended after the dict literal.  Every
probe is evaluated; no earlier outcome gates a later probe. -/
def precheck_results (env : PrecheckEnv) : List (String × Bool) :=
  [ ("OS", check_os env.system)
  , ("Python", check_python env.pyMajor env.pyMinor)
  , ("Docker", (check_docker env.docker_on_path env.docker_version_run env.docker_info_run).ret)
  , ("Docker Compose", check_docker_compose env.compose_on_path env.compose_standalone_run env.compose_plugin_run)
  , ("Required Files", check_required_files env.filePresent)
  , ("Ports", check_ports env.portFree)
  , ("Disk Space", check_disk_space env.free_space_gb)
  , ("Memory", check_memory env.available_gb)
  , ("Network", check_network env.dns_ok)
  , ("Hardware", hardware_adequate env.cpu_cores env.total_memory_gb env.storage_type) ]

/-- generate_report (pre-check.py lines 561-576): success exactly when the
number of passing results equals the total number of results. -/
def generate_report (results : List (String × Bool)) : Bool :=
  decide (results.countP (fun p => p.2) = results.length)

/-- The process exit code of the pre-check main
(pre-check.py line 611: `sys.exit(0 if success else 1)`). -/
def precheck_main_exit (env : PrecheckEnv) : Nat :=
  if generate_report (precheck_results env) then 0 else 1

/-! ## Setup wizard (setup-wizard.py) -/

/-- One event on the interactive input stream: a typed line, or an operator
interrupt (Ctrl-C raising KeyboardInterrupt inside `input()`). -/
inductive Inp where
  | line (s : String)
  | intr
  deriving Repr, DecidableEq

/-- Result of a stream-consuming wizard step: a value together with the
unconsumed rest of the stream, or a propagating KeyboardInterrupt, or a
propagating EOFError (the stream ran out, so `input()` raised). -/
inductive WRes (α : Type) where
  | ok (a : α) (rest : List Inp)
  | intr
  | eof
  deriving Repr, DecidableEq

/-- Sequencing of wizard steps: exceptions propagate. -/
def WRes.bind {α β : Type} : WRes α → (α → List Inp → WRes β) → WRes β
  | .ok a rest, f => f a rest
  | .intr, _ => .intr
  | .eof, _ => .eof

/-- Python truthiness of the optional default string. -/
def optTruthy : Option String → Bool
  | none => false
  | some s => !(s == "")

/-- get_input (setup-wizard.py lines 51-73): read a line, strip it, return
the default on empty input when a truthy default exists, otherwise run the
validator and re-prompt (consume further stream events) on a ValueError;
with no validator the stripped line is returned as is. -/
def get_input_s : List Inp → Option String → Option (String → Except String String) →
    WRes String
  | [], _, _ => .eof
  | .intr :: _, _, _ => .intr
  | .line raw :: rest, dflt, vald =>
    let s := pyStrip raw
    if s = "" ∧ optTruthy dflt = true then .ok (dflt.getD "") rest
    else
      match vald with
      | none => .ok s rest
      | some v =>
        match v s with
        | .ok r => .ok r rest
        | .error _ => get_input_s rest dflt vald

/-- validate_port (setup-wizard.py lines 75-84): parse with `int()`, require
the value in [1, 65535], and return `str(port)`; any failure — including
the out-of-range ValueError raised inside the try — surfaces as the single
ValueError message of the outer except. -/
def validate_port (port_str : String) : Except String String :=
  match py_int port_str with
  | none => .error "Please enter a valid port number"
  | some port =>
    if 1 ≤ port ∧ port ≤ 65535 then .ok (intToString port)
    else .error "Please enter a valid port number"

/-- Base-`b` digit value of a character (decimal, octal and hex digits). -/
def baseDigitVal? (b : Nat) (c : Char) : Option Nat :=
  let v : Option Nat :=
    if 48 ≤ c.toNat ∧ c.toNat ≤ 57 then some (c.toNat - 48)
    else if 97 ≤ c.toNat ∧ c.toNat ≤ 102 then some (c.toNat - 87)
    else if 65 ≤ c.toNat ∧ c.toNat ≤ 70 then some (c.toNat - 55)
    else none
  match v with
  | some d => if d < b then some d else none
  | none => none

/-- Nonempty base-`b` digit run. -/
def parseBaseDigits (b : Nat) : List Char → Option Nat
  | [] => none
  | cs => go cs 0
where
  go : List Char → Nat → Option Nat
    | [], acc => some acc
    | c :: cs, acc =>
      match baseDigitVal? b c with
      | some d => go cs (b * acc + d)
      | none => none

/-- One dot-separated component of an IPv4 string under `inet_aton`
number syntax: `0x` prefix means hex, a leading `0` means octal,
otherwise decimal. -/
def parseIPPart (cs : List Char) : Option Nat :=
  match cs with
  | [] => none
  | [c] =>
    match baseDigitVal? 10 c with
    | some d => some d
    | none => none
  | c0 :: c1 :: rest =>
    if c0 = '0' ∧ (c1 = 'x' ∨ c1 = 'X') then parseBaseDigits 16 rest
    else if c0 = '0' then parseBaseDigits 8 (c1 :: rest)
    else parseBaseDigits 10 (c0 :: c1 :: rest)

/-- Split a character list on the dot separator (the list of dot-separated
components, empty components included). -/
def splitOnDot : List Char → List (List Char)
  | [] => [[]]
  | c :: rest =>
    if c = '.' then [] :: splitOnDot rest
    else
      match splitOnDot rest with
      | [] => [[c]]
      | g :: gs => (c :: g) :: gs

/-- socket.inet_aton acceptance (setup-wizard.py line 89 calls the platform
inet_aton): one to four dot-separated numeric parts; with four parts each
must fit one byte, with fewer parts the final part fills the remaining
bytes of the 32-bit address. -/
def inet_aton_ok (s : String) : Bool :=
  match (splitOnDot s.toList).map parseIPPart with
  | [some a] => decide (a < 4294967296)
  | [some a, some b] => decide (a < 256) && decide (b < 16777216)
  | [some a, some b, some c] => decide (a < 256) && decide (b < 256) && decide (c < 65536)
  | [some a, some b, some c, some d] =>
    decide (a < 256) && decide (b < 256) && decide (c < 256) && decide (d < 256)
  | _ => false

/-- validate_ip (setup-wizard.py lines 86-92). -/
def validate_ip (ip_str : String) : Except String String :=
  if inet_aton_ok ip_str then .ok ip_str
  else .error "Please enter a valid IP address"

/-- validate_path (setup-wizard.py lines 94-106): nonempty, and the parent
directory of the path must already exist on the host filesystem (passed in
as the predicate `parentExists`; the pathlib normalisation performed by
`str(Path(p))` is identity on the paths considered here). -/
def validate_path (parentExists : String → Bool) (path_str : String) :
    Except String String :=
  if path_str = "" then .error "Path cannot be empty"
  else if ¬parentExists path_str then .error "Parent directory does not exist"
  else .ok path_str

/-- The network configuration group (setup-wizard.py lines 143-200). -/
structure NetConfig where
  P2P_PORT : String
  GRPC_PORT : String
  WRPC_BORSH_PORT : String
  WRPC_JSON_PORT : String
  EXTERNAL_IP : String
  deriving Repr, DecidableEq

/-- The container configuration group (setup-wizard.py lines 202-227). -/
structure ContainerConfig where
  CONTAINER_NAME : String
  IMAGE_NAME : String
  IMAGE_TAG : String
  deriving Repr, DecidableEq

/-- The data-storage configuration group (setup-wizard.py lines 229-251). -/
structure DataConfig where
  DATA_VOLUME_PATH : String
  APP_DATA_PATH : String
  deriving Repr, DecidableEq

/-- The system configuration group (setup-wizard.py lines 253-276). -/
structure SystemConfig where
  DNS_PRIMARY : String
  DNS_SECONDARY : String
  USER_ID : String
  GROUP_ID : String
  deriving Repr, DecidableEq

/-- The resource-limit configuration group (setup-wizard.py lines 278-295). -/
structure ResourceConfig where
  ULIMIT_SOFT : String
  ULIMIT_HARD : String
  deriving Repr, DecidableEq

/-- The health-check configuration group (setup-wizard.py lines 297-317). -/
structure HealthConfig where
  HEALTH_CHECK_INTERVAL : String
  HEALTH_CHECK_TIMEOUT : String
  HEALTH_CHECK_RETRIES : String
  HEALTH_CHECK_START_PERIOD : String
  deriving Repr, DecidableEq

/-- network_configuration (setup-wizard.py lines 143-200): five validated
prompts, then a bind-test of the four chosen ports; if any is occupied the
operator is asked to continue (default N) and on refusal the whole group
restarts.  The restart loop consumes at least one stream event per round,
so the caller passes the stream length as structural fuel; with the fuel
main supplies the zero-fuel arm is unreachable. -/
def network_configuration (portAvail : String → Bool) :
    Nat → List Inp → WRes NetConfig
  | 0, _ => .eof
  | fuel + 1, stream =>
    WRes.bind (get_input_s stream (some "16111") (some validate_port)) (fun p2p s1 =>
    WRes.bind (get_input_s s1 (some "16110") (some validate_port)) (fun grpc s2 =>
    WRes.bind (get_input_s s2 (some "17110") (some validate_port)) (fun borsh s3 =>
    WRes.bind (get_input_s s3 (some "18110") (some validate_port)) (fun jsonp s4 =>
    WRes.bind (get_input_s s4 (some "0.0.0.0") (some validate_ip)) (fun ip s5 =>
      let unavailable := ([p2p, grpc, borsh, jsonp].filter (fun p => !(portAvail p)))
      if unavailable.isEmpty then .ok ⟨p2p, grpc, borsh, jsonp, ip⟩ s5
      else
        WRes.bind (get_input_s s5 (some "N") none) (fun resp s6 =>
          if pyLower resp ≠ "y" then network_configuration portAvail fuel s6
          else .ok ⟨p2p, grpc, borsh, jsonp, ip⟩ s6))))))

/-- container_configuration (setup-wizard.py lines 202-227): three
unvalidated prompts with defaults. -/
def container_configuration (stream : List Inp) : WRes ContainerConfig :=
  WRes.bind (get_input_s stream (some "kaspa-node") none) (fun nm s1 =>
  WRes.bind (get_input_s s1 (some "local/research-pad") none) (fun img s2 =>
  WRes.bind (get_input_s s2 (some "latest") none) (fun tag s3 =>
  .ok ⟨nm, img, tag⟩ s3)))

/-- data_configuration (setup-wizard.py lines 229-251): the two data-storage
prompts.  NEITHER prompt passes a validator to get_input — the calls at
lines 241 and 246 supply only a prompt string and a default — so any
non-empty stripped answer is accepted verbatim and validate_path is never
consulted. -/
def data_configuration (default_data_dir : String) (stream : List Inp) :
    WRes DataConfig :=
  WRes.bind (get_input_s stream (some default_data_dir) none) (fun dvp s1 =>
  WRes.bind (get_input_s s1 (some "/app/data") none) (fun adp s2 =>
  .ok ⟨dvp, adp⟩ s2))

/-- system_configuration (setup-wizard.py lines 253-276): four unvalidated
prompts with defaults. -/
def system_configuration (stream : List Inp) : WRes SystemConfig :=
  WRes.bind (get_input_s stream (some "8.8.8.8") none) (fun d1 s1 =>
  WRes.bind (get_input_s s1 (some "1.1.1.1") none) (fun d2 s2 =>
  WRes.bind (get_input_s s2 (some "0") none) (fun uid s3 =>
  WRes.bind (get_input_s s3 (some "0") none) (fun gid s4 =>
  .ok ⟨d1, d2, uid, gid⟩ s4))))

/-- resource_configuration (setup-wizard.py lines 278-295): two unvalidated
prompts with defaults. -/
def resource_configuration (stream : List Inp) : WRes ResourceConfig :=
  WRes.bind (get_input_s stream (some "1048576") none) (fun sft s1 =>
  WRes.bind (get_input_s s1 (some "1048576") none) (fun hrd s2 =>
  .ok ⟨sft, hrd⟩ s2))

/-- health_check_configuration (setup-wizard.py lines 297-317): four
unvalidated prompts with defaults. -/
def health_check_configuration (stream : List Inp) : WRes HealthConfig :=
  WRes.bind (get_input_s stream (some "30s") none) (fun iv s1 =>
  WRes.bind (get_input_s s1 (some "5s") none) (fun tm s2 =>
  WRes.bind (get_input_s s2 (some "20") none) (fun rt s3 =>
  WRes.bind (get_input_s s3 (some "60s") none) (fun sp s4 =>
  .ok ⟨iv, tm, rt, sp⟩ s4))))

/-- The complete flat configuration assembled by main. -/
structure EnvConfig where
  net : NetConfig
  container : ContainerConfig
  data : DataConfig
  sys : SystemConfig
  res : ResourceConfig
  health : HealthConfig
  deriving Repr, DecidableEq

/-- env_content (setup-wizard.py lines 323-364): the rendered .env file
text, the fixed template with the configuration values substituted. -/
def env_content (cfg : EnvConfig) : String :=
  "# Kaspa Node Configuration\n" ++
  "# Generated by Kaspa Docker Setup Wizard\n" ++
  "# Developed by KaspaDev (KRCBOT)\n\n" ++
  "# Service Configuration\n" ++
  "SERVICE_NAME=research-pad\n" ++
  "CONTAINER_NAME=" ++ cfg.container.CONTAINER_NAME ++ "\n" ++
  "IMAGE_NAME=" ++ cfg.container.IMAGE_NAME ++ "\n" ++
  "IMAGE_TAG=" ++ cfg.container.IMAGE_TAG ++ "\n\n" ++
  "# Network Configuration\n" ++
  "P2P_PORT=" ++ cfg.net.P2P_PORT ++ "\n" ++
  "GRPC_PORT=" ++ cfg.net.GRPC_PORT ++ "\n" ++
  "WRPC_BORSH_PORT=" ++ cfg.net.WRPC_BORSH_PORT ++ "\n" ++
  "WRPC_JSON_PORT=" ++ cfg.net.WRPC_JSON_PORT ++ "\n" ++
  "EXTERNAL_IP=" ++ cfg.net.EXTERNAL_IP ++ "\n\n" ++
  "# Data Configuration\n" ++
  "DATA_VOLUME_PATH=" ++ cfg.data.DATA_VOLUME_PATH ++ "\n" ++
  "APP_DATA_PATH=" ++ cfg.data.APP_DATA_PATH ++ "\n\n" ++
  "# DNS Configuration\n" ++
  "DNS_PRIMARY=" ++ cfg.sys.DNS_PRIMARY ++ "\n" ++
  "DNS_SECONDARY=" ++ cfg.sys.DNS_SECONDARY ++ "\n\n" ++
  "# User Configuration\n" ++
  "USER_ID=" ++ cfg.sys.USER_ID ++ "\n" ++
  "GROUP_ID=" ++ cfg.sys.GROUP_ID ++ "\n\n" ++
  "# Resource Limits\n" ++
  "ULIMIT_SOFT=" ++ cfg.res.ULIMIT_SOFT ++ "\n" ++
  "ULIMIT_HARD=" ++ cfg.res.ULIMIT_HARD ++ "\n\n" ++
  "# Health Check Configuration\n" ++
  "HEALTH_CHECK_INTERVAL=" ++ cfg.health.HEALTH_CHECK_INTERVAL ++ "\n" ++
  "HEALTH_CHECK_TIMEOUT=" ++ cfg.health.HEALTH_CHECK_TIMEOUT ++ "\n" ++
  "HEALTH_CHECK_RETRIES=" ++ cfg.health.HEALTH_CHECK_RETRIES ++ "\n" ++
  "HEALTH_CHECK_START_PERIOD=" ++ cfg.health.HEALTH_CHECK_START_PERIOD ++ "\n\n" ++
  "# Peer Configuration (comma-separated list)\n" ++
  "PEERS=51.79.24.82:16111,162.55.100.124:16111\n"

/-- save_env_file (setup-wizard.py lines 319-380).  When .env already exists
it asks "Overwrite it? (y/N)" with default "N"; any answer other than a
(lowercased) "y" leaves the file untouched and reports not-saved.  The
write happens only after an affirmative answer (or when no file exists)
and can itself fail (`writeOk = false` models the except branch).  The
returned pair is (saved?, contents written, if any). -/
def save_env_file (envExists writeOk : Bool) (cfg : EnvConfig)
    (stream : List Inp) : WRes (Bool × Option String) :=
  if envExists then
    WRes.bind (get_input_s stream (some "N") none) (fun resp rest =>
      if pyLower resp ≠ "y" then .ok (false, none) rest
      else if writeOk then .ok (true, some (env_content cfg)) rest
      else .ok (false, none) rest)
  else if writeOk then .ok (true, some (env_content cfg)) stream
  else .ok (false, none) stream

/-- Final outcome of a wizard run: a return code from main together with the
.env contents written during the run (if any), or a crash — an exception
escaping even the generic handler, which happens exactly when the input
stream is exhausted (EOFError) since the handler itself calls `input()`. -/
inductive WizardOut where
  | exited (code : Nat) (written : Option String)
  | crashed (written : Option String)
  deriving Repr, DecidableEq

/-- main (setup-wizard.py lines 436-491).  The try-body returns 1 when
docker-compose.yml is missing, otherwise runs the six prompt groups, asks
to save (default Y), saves on anything but an explicit "n", and returns 0
after the final press-Enter prompt — whatever save_env_file returned.
`except KeyboardInterrupt` yields return 1; an EOFError reaches the
generic handler whose own `input()` re-raises, crashing the process. -/
def wizard_main (composeExists envExists writeOk : Bool)
    (portAvail : String → Bool) (default_data_dir : String)
    (stream : List Inp) : WizardOut :=
  if ¬composeExists then
    match stream with
    | [] => .crashed none
    | .intr :: _ => .exited 1 none
    | .line _ :: _ => .exited 1 none
  else
    match network_configuration portAvail (stream.length + 1) stream with
    | .intr => .exited 1 none
    | .eof => .crashed none
    | .ok net s1 =>
      match container_configuration s1 with
      | .intr => .exited 1 none
      | .eof => .crashed none
      | .ok container s2 =>
        match data_configuration default_data_dir s2 with
        | .intr => .exited 1 none
        | .eof => .crashed none
        | .ok dta s3 =>
          match system_configuration s3 with
          | .intr => .exited 1 none
          | .eof => .crashed none
          | .ok sysc s4 =>
            match resource_configuration s4 with
            | .intr => .exited 1 none
            | .eof => .crashed none
            | .ok res s5 =>
              match health_check_configuration s5 with
              | .intr => .exited 1 none
              | .eof => .crashed none
              | .ok health s6 =>
                match get_input_s s6 (some "Y") none with
                | .intr => .exited 1 none
                | .eof => .crashed none
                | .ok resp s7 =>
                  let cfg : EnvConfig := ⟨net, container, dta, sysc, res, health⟩
                  if pyLower resp ≠ "n" then
                    match save_env_file envExists writeOk cfg s7 with
                    | .intr => .exited 1 none
                    | .eof => .crashed none
                    | .ok (_, written) s8 =>
                      match s8 with
                      | [] => .crashed written
                      | .intr :: _ => .exited 1 written
                      | .line _ :: _ => .exited 0 written
                  else
                    match s7 with
                    | [] => .crashed none
                    | .intr :: _ => .exited 1 none
                    | .line _ :: _ => .exited 0 none

/-- A concrete host-probe environment, used to evaluate the embedded
pre-check at a specific input. -/
def sampleEnv : PrecheckEnv :=
  { system := "linux"
    pyMajor := 3
    pyMinor := 11
    docker_on_path := true
    docker_version_run := .completed 0 "Docker version 24.0"
    docker_info_run := .completed 0 ""
    compose_on_path := true
    compose_standalone_run := .completed 0 "docker-compose version 2"
    compose_plugin_run := .completed 0 "Docker Compose version v2"
    filePresent := fun _ => true
    portFree := fun _ => true
    free_space_gb := 100
    available_gb := 8
    dns_ok := true
    cpu_cores := 8
    total_memory_gb := 16
    storage_type := "SSD" }

/-- A concrete wizard configuration (the all-defaults answers), used to
evaluate save_env_file at a specific input. -/
def sampleConfig : EnvConfig :=
  ⟨⟨"16111", "16110", "17110", "18110", "0.0.0.0"⟩,
   ⟨"kaspa-node", "local/research-pad", "latest"⟩,
   ⟨"./kaspa-data", "/app/data"⟩,
   ⟨"8.8.8.8", "1.1.1.1", "0", "0"⟩,
   ⟨"1048576", "1048576"⟩,
   ⟨"30s", "5s", "20", "60s"⟩⟩

/-- A concrete installer environment (both tools already installed and
verifying successfully), used to evaluate installer_main at a specific
input. -/
def sampleInstallerEnv : InstallerEnv :=
  { system := "linux"
    docker_on_path := true
    compose_on_path := true
    compose_space_on_path := false
    verify_docker_on_path := true
    verify_docker_version_run := .completed 0 "Docker version 24.0"
    verify_docker_info_run := .completed 0 ""
    verify_plugin_run := .completed 0 "Docker Compose version v2"
    verify_standalone_on_path := true
    verify_standalone_run := .completed 0 "docker-compose version 2"
    pre_plugin_run := .completed 0 ""
    pre_standalone_on_path := true
    pre_standalone_run := .completed 0 ""
    install_linux_ok := true
    install_macos_ok := true
    install_windows_ok := true
    install_compose_standalone_ok := true }

/-! ## Helper lemmas -/

theorem natDigitsAux_lt (fuel n : Nat) : ∀ d ∈ natDigitsAux fuel n, d < 10 := by
  induction fuel generalizing n with
  | zero => cases n <;> simp [natDigitsAux]
  | succ fuel ih =>
    cases n with
    | zero => simp [natDigitsAux]
    | succ m =>
      intro d hd
      simp only [natDigitsAux, List.mem_cons] at hd
      rcases hd with h | h
      · omega
      · exact ih _ d h

theorem natDigitsAux_foldl (fuel : Nat) :
    ∀ n acc, n ≤ fuel →
      ((natDigitsAux fuel n).reverse).foldl (fun a d => 10 * a + d) acc =
        acc * 10 ^ (natDigitsAux fuel n).length + n := by
  induction fuel with
  | zero =>
    intro n acc h
    have : n = 0 := Nat.le_zero.mp h
    subst this
    simp [natDigitsAux]
  | succ fuel ih =>
    intro n acc h
    cases n with
    | zero => simp [natDigitsAux]
    | succ m =>
      have hq : (m + 1) / 10 ≤ fuel := by
        have := Nat.div_lt_self (Nat.succ_pos m) (by omega : 1 < 10)
        omega
      simp only [natDigitsAux, List.reverse_cons, List.foldl_append, List.foldl_cons,
        List.foldl_nil, List.length_cons]
      rw [ih ((m + 1) / 10) acc hq]
      have hdm := Nat.div_add_mod (m + 1) 10
      ring_nf
      omega

theorem digitVal?_digitChar {d : Nat} (hd : d < 10) :
    digitVal? (digitChar d) = some d := by
  interval_cases d <;> rfl

theorem digitChar_ne_underscore {d : Nat} (hd : d < 10) : digitChar d ≠ '_' := by
  interval_cases d <;> decide

theorem digitChar_ne_minus {d : Nat} (hd : d < 10) : digitChar d ≠ '-' := by
  interval_cases d <;> decide

theorem digitChar_ne_plus {d : Nat} (hd : d < 10) : digitChar d ≠ '+' := by
  interval_cases d <;> decide

theorem isSpaceChar_digitChar {d : Nat} (hd : d < 10) :
    isSpaceChar (digitChar d) = false := by
  interval_cases d <;> decide

theorem parsePyDigitsAux_cons_digit {c : Char} {d : Nat} (h1 : c ≠ '_')
    (h2 : digitVal? c = some d) (cs : List Char) (acc : Nat) :
    parsePyDigitsAux (c :: cs) acc = parsePyDigitsAux cs (10 * acc + d) := by
  rw [parsePyDigitsAux.eq_def]
  simp only [if_neg h1, h2]

theorem parsePyDigitsAux_digits (L : List Nat) :
    ∀ acc, (∀ d ∈ L, d < 10) →
      parsePyDigitsAux (L.map digitChar) acc =
        some (L.foldl (fun a d => 10 * a + d) acc) := by
  induction L with
  | nil => intro acc _; rfl
  | cons d L ih =>
    intro acc h
    have hd : d < 10 := h d (by simp)
    have h' : ∀ x ∈ L, x < 10 := fun x hx => h x (by simp [hx])
    rw [List.map_cons,
      parsePyDigitsAux_cons_digit (digitChar_ne_underscore hd) (digitVal?_digitChar hd),
      List.foldl_cons]
    exact ih (10 * acc + d) h'

theorem parsePyDigits_cons_digit {c : Char} {d : Nat} (h2 : digitVal? c = some d)
    (cs : List Char) :
    parsePyDigits (c :: cs) = parsePyDigitsAux cs d := by
  rw [parsePyDigits.eq_def]
  dsimp only
  rw [h2]

theorem parsePyDigits_digits (d : Nat) (L : List Nat) (hd : d < 10)
    (h : ∀ x ∈ L, x < 10) :
    parsePyDigits ((d :: L).map digitChar) =
      some ((d :: L).foldl (fun a d => 10 * a + d) 0) := by
  rw [List.map_cons, parsePyDigits_cons_digit (digitVal?_digitChar hd), List.foldl_cons]
  have h0 : 10 * 0 + d = d := by omega
  rw [h0]
  exact parsePyDigitsAux_digits L d h

theorem dropWhile_all_false {p : Char → Bool} :
    ∀ cs : List Char, (∀ c ∈ cs, p c = false) → cs.dropWhile p = cs := by
  intro cs h
  cases cs with
  | nil => rfl
  | cons c cs => simp [List.dropWhile, h c (by simp)]

theorem stripChars_eq_self (cs : List Char) (h : ∀ c ∈ cs, isSpaceChar c = false) :
    stripChars cs = cs := by
  unfold stripChars
  rw [dropWhile_all_false cs h]
  rw [dropWhile_all_false cs.reverse (fun c hc => h c (List.mem_reverse.mp hc))]
  exact List.reverse_reverse cs

theorem natDigits_succ (m : Nat) :
    natDigits (m + 1) = (m + 1) % 10 :: natDigitsAux m ((m + 1) / 10) := rfl

theorem py_int_strip_cons (s : String) (c : Char) (cs : List Char)
    (h : stripChars s.toList = c :: cs) (h1 : c ≠ '-') (h2 : c ≠ '+') :
    py_int s = (parsePyDigits (c :: cs)).map (fun n => (n : Int)) := by
  unfold py_int
  rw [h]
  dsimp only
  rw [if_neg h1, if_neg h2]

theorem py_int_natToString (n : Nat) (hn : 1 ≤ n) :
    py_int (natToString n) = some (n : Int) := by
  obtain ⟨m, rfl⟩ : ∃ m, n = m + 1 := ⟨n - 1, by omega⟩
  obtain ⟨D, e, hDe⟩ : ∃ D e, (natDigits (m + 1)).reverse = D :: e := by
    rw [natDigits_succ, List.reverse_cons]
    cases hA : (natDigitsAux m ((m + 1) / 10)).reverse with
    | nil => exact ⟨(m + 1) % 10, [], by simp⟩
    | cons x xs => exact ⟨x, xs ++ [(m + 1) % 10], by simp⟩
  have hdig : ∀ d ∈ (natDigits (m + 1)).reverse, d < 10 :=
    fun d hd => natDigitsAux_lt (m + 1) (m + 1) d (List.mem_reverse.mp hd)
  have hD : D < 10 := hdig D (by rw [hDe]; exact List.mem_cons_self D e)
  have he : ∀ x ∈ e, x < 10 := fun x hx => hdig x (by
    rw [hDe]; exact List.mem_cons_of_mem _ hx)
  have hnat : natToString (m + 1) = ⟨((natDigits (m + 1)).reverse).map digitChar⟩ := by
    simp [natToString]
  have hsp : ∀ c ∈ ((natDigits (m + 1)).reverse).map digitChar,
      isSpaceChar c = false := by
    intro c hc
    obtain ⟨d, hdm, rfl⟩ := List.mem_map.mp hc
    exact isSpaceChar_digitChar (hdig d hdm)
  have hstrip : stripChars ((natToString (m + 1)).toList) =
      digitChar D :: e.map digitChar := by
    rw [hnat]
    rw [show (String.mk (((natDigits (m + 1)).reverse).map digitChar)).toList =
        ((natDigits (m + 1)).reverse).map digitChar from rfl]
    rw [stripChars_eq_self _ hsp, hDe, List.map_cons]
  rw [py_int_strip_cons _ _ _ hstrip (digitChar_ne_minus hD) (digitChar_ne_plus hD)]
  rw [← List.map_cons, parsePyDigits_digits D e hD he]
  have hfold : (D :: e).foldl (fun a d => 10 * a + d) 0 = m + 1 := by
    have h0 := natDigitsAux_foldl (m + 1) (m + 1) 0 (le_refl _)
    rw [show natDigits (m + 1) = natDigitsAux (m + 1) (m + 1) from rfl] at hDe
    rw [hDe] at h0
    simpa using h0
  rw [hfold]
  rfl

theorem py_int_intToString (n : Int) (hn : 1 ≤ n) :
    py_int (intToString n) = some n := by
  have h1 : ¬n < 0 := by omega
  have h2 : 1 ≤ n.toNat := by omega
  rw [intToString, if_neg h1, py_int_natToString n.toNat h2]
  congr 1
  omega

theorem validate_port_ok {s r : String} (h : validate_port s = .ok r) :
    ∃ n : Int, py_int s = some n ∧ 1 ≤ n ∧ n ≤ 65535 ∧ r = intToString n := by
  cases hp : py_int s with
  | none => simp [validate_port, hp] at h
  | some n =>
    by_cases hr : 1 ≤ n ∧ n ≤ 65535
    · refine ⟨n, rfl, hr.1, hr.2, ?_⟩
      simp [validate_port, hp, hr] at h
      exact h.symm
    · simp [validate_port, hp, hr] at h

theorem validate_port_idem {s r : String} (h : validate_port s = .ok r) :
    validate_port r = .ok r := by
  obtain ⟨n, hp, h1, h2, rfl⟩ := validate_port_ok h
  have hri : py_int (intToString n) = some n := py_int_intToString n h1
  simp [validate_port, hri, h1, h2]

theorem get_input_s_line_none (raw : String) (rest : List Inp) (d : String)
    (hd : d ≠ "") :
    get_input_s (.line raw :: rest) (some d) none =
      .ok (if pyStrip raw = "" then d else pyStrip raw) rest := by
  by_cases hc : pyStrip raw = ""
  · simp [get_input_s, hc, optTruthy, hd]
  · simp [get_input_s, hc, optTruthy]

theorem get_input_s_line_valid (raw : String) (rest : List Inp) (dflt : Option String)
    (v : String → Except String String)
    (hns : ¬(pyStrip raw = "" ∧ optTruthy dflt = true)) :
    get_input_s (.line raw :: rest) dflt (some v) =
      match v (pyStrip raw) with
      | .ok r => .ok r rest
      | .error _ => get_input_s rest dflt (some v) := by
  simp only [get_input_s, if_neg hns]

theorem get_input_s_ok_sound (v : String → Except String String) (d : String) :
    ∀ (stream : List Inp) (r : String) (rest : List Inp),
      get_input_s stream (some d) (some v) = .ok r rest →
      r = d ∨ ∃ s, v s = .ok r := by
  intro stream
  induction stream with
  | nil => intro r rest h; simp [get_input_s] at h
  | cons i tail ih =>
    intro r rest h
    cases i with
    | intr => simp [get_input_s] at h
    | line raw =>
      by_cases hc : pyStrip raw = "" ∧ optTruthy (some d) = true
      · left
        simp [get_input_s, hc] at h
        exact h.1.symm
      · rw [get_input_s_line_valid raw tail (some d) v hc] at h
        cases hv : v (pyStrip raw) with
        | ok rr =>
          rw [hv] at h
          simp only [WRes.ok.injEq] at h
          right
          exact ⟨pyStrip raw, by rw [hv, h.1]⟩
        | error msg =>
          rw [hv] at h
          exact ih r rest h


/-- C1: for every hardware profile the overall score equals the unweighted
arithmetic mean of the three component scores, the tier label is the pure
threshold function of the overall score (45 maps to Fair, 44.999 to Poor),
and the adequate-hardware boolean is true exactly when the overall score is
at least 45. -/
theorem rank_overall_mean_tier_adequacy :
    ∀ (c : Nat) (m : ℚ) (t : String),
      (rank_hardware_performance c m t).overallScore =
        (((rank_hardware_performance c m t).cpuScore : ℚ)
          + ((rank_hardware_performance c m t).memoryScore : ℚ)
          + ((rank_hardware_performance c m t).storageScore : ℚ)) / 3
      ∧ (rank_hardware_performance c m t).overallRating =
          tier_of_overall (rank_hardware_performance c m t).overallScore
      ∧ ((rank_hardware_performance c m t).adequate = true ↔
          (45 : ℚ) ≤ (rank_hardware_performance c m t).overallScore)
      ∧ tier_of_overall 45 = "Fair"
      ∧ tier_of_overall (44999 / 1000 : ℚ) = "Poor" := by
  intro c m t
  refine ⟨rfl, rfl, ?_, ?_, ?_⟩
  · simp [rank_hardware_performance, hardware_adequate]
  · norm_num [tier_of_overall]
  · norm_num [tier_of_overall]

/-- C2 counterexample: the claim asserts that 15 physical cores score 60,
but the code gives every core count in [8, 16) the score 80, so a host
with 15 cores scores 80, not 60. -/
theorem cpu_score_fifteen_is_eighty : cpu_score 15 = 80 ∧ cpu_score 15 ≠ 60 := by
  decide

/-- C2 amended: the CPU score is monotonically non-decreasing in the core
count and is exactly the documented step function with breakpoints
2, 4, 8, 16 mapping to 20, 40, 60, 80, 100 (below 2 scores 20); in
particular 8 cores score 80, 15 cores score 80, and 16 cores score 100. -/
theorem cpu_score_monotone_buckets :
    (∀ a b : Nat, a ≤ b → cpu_score a ≤ cpu_score b)
    ∧ (∀ c : Nat, cpu_score c = specCpuScore c)
    ∧ cpu_score 8 = 80 ∧ cpu_score 15 = 80 ∧ cpu_score 16 = 100 := by
  refine ⟨?_, ?_, by decide, by decide, by decide⟩
  · intro a b hab
    unfold cpu_score
    split_ifs <;> omega
  · intro c
    unfold cpu_score specCpuScore
    split_ifs <;> omega

/-- C2 amended, witness: monotonicity applied at the concrete pair 3 and 12. -/
theorem cpu_score_monotone_buckets_witness : cpu_score 3 ≤ cpu_score 12 :=
  cpu_score_monotone_buckets.1 3 12 (by decide)

/-- C3: the memory score is exactly the documented step function with
breakpoints 4, 8, 16, 32, 64 GiB mapping to 10, 30, 50, 70, 90, 100
(below 4 GiB scores 10); at the boundaries, 16.0 GiB scores 70 and
15.99 GiB scores 50. -/
theorem memory_score_buckets :
    (∀ m : ℚ, memory_score m = specMemoryScore m)
    ∧ memory_score 16 = 70 ∧ memory_score (1599 / 100 : ℚ) = 50 := by
  refine ⟨?_, ?_, ?_⟩
  · intro m
    unfold memory_score specMemoryScore
    split_ifs <;> first | rfl | (exfalso; linarith)
  · norm_num [memory_score]
  · norm_num [memory_score]

/-- C4: evaluation of the pre-flight Docker probe at a run where docker is on
PATH, the version query exits 0, and the daemon-status query `docker info`
exits 1 (daemon down).  check_docker nevertheless reports the daemon as
running and returns True, because `subprocess.run` without `check=True`
never raises `CalledProcessError`, so the except arm that would report the
daemon failure is dead code.  The installer counterpart
check_docker_installation, which runs the same probe through run_command
with check=True, returns False on the identical outcome — showing the
intended behaviour the claim (and the spec) describe. -/
theorem check_docker_daemon_nonzero_info_bug :
    check_docker true (.completed 0 "Docker version 24.0.7") (.completed 1 "") =
      ⟨true, some true⟩
    ∧ check_docker_installation true (.completed 0 "Docker version 24.0.7")
        (.completed 1 "") = false := ⟨rfl, rfl⟩

theorem get_input_s_line_nonempty_none (raw : String) (rest : List Inp)
    (dflt : Option String) (h : pyStrip raw ≠ "") :
    get_input_s (.line raw :: rest) dflt none = .ok (pyStrip raw) rest := by
  simp [get_input_s, h]

/-- C5 counterexample: the wizard accepts a host data directory whose parent
does not exist.  On the input stream answering the first data prompt with
such a path and taking the default for the second, data_configuration
stores the path verbatim, while validate_path (on a filesystem where the
parent is absent) rejects that very path — so the path validator is not
run by these prompts. -/
theorem data_prompt_bypasses_validate_path :
    data_configuration "./kaspa-data"
        [.line "/nonexistent-dir/kaspa-data", .line ""] =
      .ok ⟨"/nonexistent-dir/kaspa-data", "/app/data"⟩ []
    ∧ validate_path (fun _ => false) "/nonexistent-dir/kaspa-data" =
        .error "Parent directory does not exist" := ⟨rfl, rfl⟩

/-- C5 amended: the data-storage prompts pass no validator to get_input, so
any answer with non-empty stripped text is accepted verbatim as the host
data directory (and the container path likewise; an empty answer takes the
default), without validate_path ever being consulted — a path whose parent
directory does not exist can therefore end up in the configuration. -/
theorem data_prompts_accept_unvalidated :
    ∀ (default_data_dir p : String) (rest : List Inp), pyStrip p ≠ "" →
      data_configuration default_data_dir (.line p :: .line "" :: rest) =
        .ok ⟨pyStrip p, "/app/data"⟩ rest := by
  intro dd p rest hp
  unfold data_configuration
  rw [get_input_s_line_nonempty_none p _ _ hp]
  rfl

/-- C5 amended, witness: the amended statement applied at a concrete
unvalidated path answer. -/
theorem data_prompts_accept_unvalidated_witness :
    data_configuration "./kaspa-data" [.line "/x/y", .line ""] =
      .ok ⟨"/x/y", "/app/data"⟩ [] :=
  data_prompts_accept_unvalidated "./kaspa-data" "/x/y" [] (by decide)

/-- C6 counterexample: a complete wizard run in which every prompt takes its
default and the overwrite confirmation of the existing .env is declined
(default N).  Saving is declined, nothing is written — and main returns 0,
not the exit code 1 the claim requires for a failed or declined save. -/
theorem wizard_exit_zero_on_declined_save :
    wizard_main true true true (fun _ => true) "./kaspa-data"
      (List.replicate 23 (.line "")) = .exited 0 none := rfl

/-- C6 amended: the requirement checker exits 0 exactly when its report
succeeds (all checks pass) and 1 otherwise.  The installer returns only 0
or 1, returns 0 only when its verification phase succeeds, and its
top-level wrapper turns an operator interrupt (or any other escaping
exception) into a clean exit 1.  The setup wizard returns 1 when
docker-compose.yml is missing and when the operator interrupts at any
prompt of the flow — at any of the 21 prompts before the save (all-default
answers shown), at the overwrite prompt, or at the final press-Enter
prompt — but returns 0 once the prompt flow completes, including when
saving the configuration is declined (overwrite refused) or fails (the
write raises). -/
theorem entry_point_exit_codes :
    (∀ env : PrecheckEnv,
      (generate_report (precheck_results env) = true → precheck_main_exit env = 0)
      ∧ (generate_report (precheck_results env) = false → precheck_main_exit env = 1))
    ∧ (∀ (e w : Bool) (pa : String → Bool) (dd s : String) (rest : List Inp),
        wizard_main false e w pa dd (.line s :: rest) = .exited 1 none)
    ∧ (∀ (e w : Bool) (rest : List Inp) (k : Nat), k ≤ 20 →
        wizard_main true e w (fun _ => true) "./kaspa-data"
          (List.replicate k (.line "") ++ .intr :: rest) = .exited 1 none)
    ∧ wizard_main true true true (fun _ => true) "./kaspa-data"
        (List.replicate 21 (.line "") ++ [.intr]) = .exited 1 none
    ∧ wizard_main true true true (fun _ => true) "./kaspa-data"
        (List.replicate 22 (.line "") ++ [.intr]) = .exited 1 none
    ∧ wizard_main true true true (fun _ => true) "./kaspa-data"
        (List.replicate 21 (.line "") ++ [.line "", .line ""]) = .exited 0 none
    ∧ wizard_main true true false (fun _ => true) "./kaspa-data"
        (List.replicate 21 (.line "") ++ [.line "y", .line ""]) = .exited 0 none
    ∧ (∀ env : InstallerEnv,
        (installer_main env = 0 ∨ installer_main env = 1)
        ∧ (installer_main env = 0 → installer_verify env = true))
    ∧ (∀ env : InstallerEnv,
        installer_entry env .interrupt = 1 ∧ installer_entry env .exception = 1
        ∧ installer_entry env .normal = installer_main env) := by
  refine ⟨?_, ?_, ?_, rfl, rfl, rfl, rfl, ?_, fun env => ⟨rfl, rfl, rfl⟩⟩
  · intro env
    constructor
    · intro h
      simp [precheck_main_exit, h]
    · intro h
      simp [precheck_main_exit, h]
  · intro e w pa dd s rest
    rfl
  · intro e w rest k hk
    interval_cases k <;> rfl
  · intro env
    constructor
    · unfold installer_main
      split_ifs <;> omega
    · intro h
      unfold installer_main at h
      split_ifs at h <;> assumption

/-- C7: a wizard prompt with a validator returns only the default or a
validator-accepted value; an answer the validator rejects is not returned
and prompting continues with the rest of the stream.  In particular the
out-of-range port answer 70000 and the malformed address 999.1.1.1 are
rejected by validate_port and validate_ip respectively. -/
theorem wizard_validator_gating :
    (∀ (v : String → Except String String) (d : String) (stream : List Inp)
        (r : String) (rest : List Inp),
        get_input_s stream (some d) (some v) = .ok r rest →
        r = d ∨ ∃ s, v s = .ok r)
    ∧ (∀ (v : String → Except String String) (d raw : String) (rest : List Inp)
        (msg : String), pyStrip raw ≠ "" → v (pyStrip raw) = .error msg →
        get_input_s (.line raw :: rest) (some d) (some v) =
          get_input_s rest (some d) (some v))
    ∧ validate_port "70000" = .error "Please enter a valid port number"
    ∧ validate_ip "999.1.1.1" = .error "Please enter a valid IP address" := by
  refine ⟨?_, ?_, rfl, rfl⟩
  · exact fun v d stream r rest h => get_input_s_ok_sound v d stream r rest h
  · intro v d raw rest msg hraw hv
    rw [get_input_s_line_valid raw rest (some d) v (fun hc => hraw hc.1)]
    rw [hv]

/-- C7 witness: the gating applied at concrete inputs — the accepted value 80
of a port prompt is validator-accepted, and the rejected answer 70000
makes the prompt recurse on the remaining stream. -/
theorem wizard_validator_gating_witness :
    ("80" = "16111" ∨ ∃ s, validate_port s = .ok "80")
    ∧ get_input_s [.line "70000", .line "80"] (some "16111") (some validate_port) =
        get_input_s [.line "80"] (some "16111") (some validate_port) := by
  constructor
  · exact wizard_validator_gating.1 validate_port "16111" [.line "80"] "80" []
      (by decide)
  · exact wizard_validator_gating.2.1 validate_port "16111" "70000" [.line "80"]
      "Please enter a valid port number" (by decide) rfl

theorem save_env_file_true_line (w : Bool) (cfg : EnvConfig) (line : String)
    (rest : List Inp) :
    save_env_file true w cfg (.line line :: rest) =
      (fun resp => if pyLower resp ≠ "y" then WRes.ok (false, none) rest
        else if w then .ok (true, some (env_content cfg)) rest
        else .ok (false, none) rest)
      (if pyStrip line = "" then "N" else pyStrip line) := by
  unfold save_env_file
  rw [get_input_s_line_none line rest "N" (by decide)]
  rfl

/-- C8: when .env already exists, every overwrite answer that is not an
explicit y (in particular the empty answer, which takes the default N)
leaves the file untouched — no write occurs — and save_env_file reports
that the configuration was not saved. -/
theorem save_env_decline_no_write :
    ∀ (cfg : EnvConfig) (writeOk : Bool) (line : String) (rest : List Inp),
      pyLower (pyStrip line) ≠ "y" →
      save_env_file true writeOk cfg (.line line :: rest) = .ok (false, none) rest := by
  intro cfg w line rest h
  rw [save_env_file_true_line]
  by_cases hc : pyStrip line = ""
  · rw [if_pos hc]
    dsimp only
    rw [if_pos (by decide : pyLower "N" ≠ "y")]
  · rw [if_neg hc]
    dsimp only
    rw [if_pos h]

/-- C8 witness: declining by pressing Enter (the default N) at the overwrite
prompt of an existing .env returns not-saved with nothing written. -/
theorem save_env_decline_no_write_witness :
    save_env_file true true sampleConfig [.line "", .line "x"] =
      .ok (false, none) [.line "x"] :=
  save_env_decline_no_write sampleConfig true "" [.line "x"] (by decide)

/-- C9: the pre-check results always contain every probe, keyed by name, in
order, regardless of any outcome; the report succeeds exactly when the
pass count equals the total count, which holds exactly when every
collected result is true; the exit status is 0 exactly when the report
succeeds; and changing only the file-presence facts changes no entry of
the results other than the Required Files entry (index 4) — each probe is
a function of its own host facts alone. -/
theorem precheck_runs_all_and_aggregates :
    ∀ env : PrecheckEnv,
      (precheck_results env).map Prod.fst =
        ["OS", "Python", "Docker", "Docker Compose", "Required Files", "Ports",
         "Disk Space", "Memory", "Network", "Hardware"]
      ∧ (generate_report (precheck_results env) = true ↔
          ∀ p ∈ precheck_results env, p.2 = true)
      ∧ (precheck_main_exit env = 0 ↔ generate_report (precheck_results env) = true)
      ∧ ∀ (fp fp' : String → Bool) (i : Nat), i ≠ 4 →
          (precheck_results { env with filePresent := fp }).get? i =
          (precheck_results { env with filePresent := fp' }).get? i := by
  intro env
  refine ⟨rfl, ?_, ?_, ?_⟩
  · simp [generate_report, List.countP_eq_length]
  · by_cases hg : generate_report (precheck_results env) = true
    · simp [precheck_main_exit, hg]
    · simp [precheck_main_exit, hg]
  · intro fp fp' i hi
    exact match i, hi with
      | 0, _ => rfl
      | 1, _ => rfl
      | 2, _ => rfl
      | 3, _ => rfl
      | 4, h => absurd rfl h
      | 5, _ => rfl
      | 6, _ => rfl
      | 7, _ => rfl
      | 8, _ => rfl
      | 9, _ => rfl
      | n + 10, _ => rfl

/-- C9 witness: probe isolation applied at the concrete environment, probe
index 0, with the file-presence facts flipped between runs. -/
theorem precheck_runs_all_and_aggregates_witness :
    (precheck_results { sampleEnv with filePresent := fun _ => true }).get? 0 =
    (precheck_results { sampleEnv with filePresent := fun _ => false }).get? 0 :=
  (precheck_runs_all_and_aggregates sampleEnv).2.2.2 (fun _ => true)
    (fun _ => false) 0 (by decide)

/-- C10: every port answer validate_port accepts is returned as the canonical
decimal string of the parsed integer — str(int(answer)) — and accepted
values re-validate to themselves; the answer 0080 is stored as 80, and a
whitespace-padded 0080 typed at a wizard port prompt is likewise stored
as 80 (get_input strips the raw input before validating). -/
theorem validate_port_canonicalizes :
    (∀ s r : String, validate_port s = .ok r →
      ∃ n : Int, py_int s = some n ∧ 1 ≤ n ∧ n ≤ 65535 ∧ r = intToString n
        ∧ validate_port r = .ok r)
    ∧ validate_port "0080" = .ok "80"
    ∧ get_input_s [.line " 0080 "] (some "16111") (some validate_port) =
        .ok "80" [] := by
  refine ⟨?_, rfl, rfl⟩
  intro s r h
  obtain ⟨n, hp, h1, h2, rfl⟩ := validate_port_ok h
  exact ⟨n, hp, h1, h2, rfl, validate_port_idem h⟩

/-- C10 witness: canonicalisation and idempotence applied at the concrete
accepted answer 0080. -/
theorem validate_port_canonicalizes_witness :
    ∃ n : Int, py_int "0080" = some n ∧ 1 ≤ n ∧ n ≤ 65535
      ∧ "80" = intToString n ∧ validate_port "80" = .ok "80" :=
  validate_port_canonicalizes.1 "0080" "80" rfl

/-- C6 amended, witness: the exit-code rules applied at concrete inputs,
discharging each hypothesis there — the passing pre-check environment, an
operator interrupt at the sixth wizard prompt, and the installer run that
returns 0. -/
theorem entry_point_exit_codes_witness :
    precheck_main_exit sampleEnv = 0
    ∧ wizard_main true true true (fun _ => true) "./kaspa-data"
        (List.replicate 5 (.line "") ++ .intr :: ([] : List Inp)) = .exited 1 none
    ∧ installer_verify sampleInstallerEnv = true := by
  refine ⟨(entry_point_exit_codes.1 sampleEnv).1 ?_,
    entry_point_exit_codes.2.2.1 true true [] 5 (by omega),
    (entry_point_exit_codes.2.2.2.2.2.2.2.1 sampleInstallerEnv).2 rfl⟩
  have h : hardware_adequate 8 16 "SSD" = true := by
    unfold hardware_adequate overall_score cpu_score memory_score storage_score
    rw [if_neg (by decide : ¬("SSD" : String) = "NVMe SSD")]
    norm_num
  have hlist : precheck_results sampleEnv =
      [("OS", true), ("Python", true), ("Docker", true), ("Docker Compose", true),
       ("Required Files", true), ("Ports", true), ("Disk Space", true),
       ("Memory", true), ("Network", true),
       ("Hardware", hardware_adequate 8 16 "SSD")] := rfl
  rw [generate_report, hlist, h]
  decide
